import Mathlib

/-!
Shallow embedding of the browser-side scripts of the Spotilytics repository
(static JS under src/music/static/js and src/static/js), together with proofs
about the behaviours its specification describes: release-type filtering on
the artist page, client-side table sorting, the item-stats fetcher, the
custom date-range form, the chart-instance registry, track preview loading,
scroll-position persistence and the chat form.

Conventions used throughout:
- JS values that may be `undefined`/`null` are embedded as `Option`.
- Code that can throw returns `Except` (the error constructor records which
  JS exception is raised).
- Network interaction is embedded by passing the outcome of the fetch as an
  explicit argument: each constructor corresponds to one observable way the
  fetch can resolve (rejection, non-JSON body, parsed JSON payload).
- DOM state touched by a handler is gathered in a structure; the handler is
  a pure function from old state (and fetch outcome) to new state.
-/

namespace ArtistReleases

/-! Model of `filterReleasesByType` from
src/music/static/js/pages/artist.js (the same filter appears inline in
`loadReleases` of src/music/static/js/artist.js). A release carries the
fields the filter reads: `album_type` and the credited `artists` array,
which may be absent (`none`, a falsy value in JS). -/

/-- Credited artist object as delivered by `GET /artist/{id}/releases/`;
the filter only reads its `id`. -/
structure ArtistRef where
  id : String
deriving Repr, DecidableEq

/-- Release object: only the fields the type filter reads. `artists = none`
embeds a missing/falsy `artists` property. -/
structure Release where
  album_type : String
  artists : Option (List ArtistRef)
deriving Repr, DecidableEq

/-- JS exception raised when evaluating `release.artists[0].id` while
`artists` is a present but empty array: `release.artists[0]` is `undefined`
and reading `.id` of `undefined` throws. -/
inductive JsError where
  | typeError
deriving Repr, DecidableEq

/-- Evaluation of `release.artists && release.artists[0].id === artistId`:
a missing `artists` is falsy and short-circuits to `false`; an empty array
is truthy, so `release.artists[0].id` is evaluated and throws; otherwise
the first credited artist id is compared. -/
def ownedCompilationCheck (r : Release) (artistId : String) : Except JsError Bool :=
  match r.artists with
  | none => .ok false
  | some [] => .error .typeError
  | some (a :: _) => .ok (a.id = artistId)

/-- The filter callback of `filterReleasesByType`, one release at a time. -/
def releaseMatches (ty artistId : String) (r : Release) : Except JsError Bool :=
  if ty = "all" then
    if r.album_type = "compilation" then
      ownedCompilationCheck r artistId
    else
      .ok (r.album_type ≠ "appears_on")
  else if ty = "compilation" then
    if r.album_type = "compilation" then
      ownedCompilationCheck r artistId
    else
      .ok false
  else
    .ok (r.album_type = ty)

/-- `releases.filter(callback)` where the callback may throw: elements are
visited left to right and a thrown exception aborts the whole call. -/
def filterReleasesByType (releases : List Release) (ty artistId : String) :
    Except JsError (List Release) :=
  match releases with
  | [] => .ok []
  | r :: rest => do
      let keep ← releaseMatches ty artistId r
      let tail ← filterReleasesByType rest ty artistId
      pure (if keep then r :: tail else tail)

/-- Predicate the claim attributes to the "compilation" filter: album type
is "compilation" and the first credited artist has the requested id, with
releases whose artists list is missing or empty excluded. -/
def specCompilationMatch (artistId : String) (r : Release) : Bool :=
  r.album_type = "compilation" &&
    match r.artists with
    | some (a :: _) => a.id = artistId
    | _ => false

/-- On a release that is not a compilation with a present-but-empty artists
list, the filter callback computes exactly the predicate the claim states. -/
theorem releaseMatches_compilation_eq (A : String) (r : Release)
    (h : ¬ (r.album_type = "compilation" ∧ r.artists = some [])) :
    releaseMatches "compilation" A r = .ok (specCompilationMatch A r) := by
  unfold releaseMatches specCompilationMatch ownedCompilationCheck
  rw [if_neg (show ¬ (("compilation" : String) = "all") by decide),
      if_pos rfl]
  by_cases hc : r.album_type = "compilation"
  · match hart : r.artists with
    | none => simp [hc]
    | some [] => exact absurd ⟨hc, hart⟩ h
    | some (a :: rest) => simp [hc]
  · simp [hc]

/-- A release with `album_type = "compilation"` and a present but empty
artists array: the claim says it is excluded, the code throws on it. -/
def badRelease : Release :=
  { album_type := "compilation", artists := some [] }

/-- C1 (counterexample): at a payload containing a compilation release with
a present-but-empty artists list, `filterReleasesByType` with type
"compilation" throws a TypeError instead of returning the releases the
claim describes (here: the empty list), so the claim as stated is false. -/
theorem C1_filter_compilation_counterexample :
    filterReleasesByType [badRelease] "compilation" "A123" = .error .typeError ∧
    List.filter (specCompilationMatch "A123") [badRelease] = [] ∧
    filterReleasesByType [badRelease] "compilation" "A123"
      ≠ .ok (List.filter (specCompilationMatch "A123") [badRelease]) := by
  refine ⟨rfl, rfl, fun hco => ?_⟩
  rw [show filterReleasesByType [badRelease] "compilation" "A123"
        = .error .typeError from rfl] at hco
  exact Except.noConfusion hco

/-- C1 (amended): on every releases payload in which no release combines
`album_type = "compilation"` with a present-but-empty artists list, the
release-type filter invoked with type "compilation" and artist id `A`
returns exactly the releases whose `album_type` is "compilation" and whose
first credited artist id is `A` (releases with a missing artists list are
excluded); a compilation release with a present-but-empty artists list
instead makes the filter throw a TypeError. -/
theorem C1_filter_compilation_amended (releases : List Release) (A : String)
    (h : ∀ r ∈ releases, ¬ (r.album_type = "compilation" ∧ r.artists = some [])) :
    filterReleasesByType releases "compilation" A
      = .ok (releases.filter (specCompilationMatch A)) := by
  induction releases with
  | nil => rfl
  | cons r rest ih =>
      have hr := h r (List.mem_cons_self r rest)
      have hrest := fun x hx => h x (List.mem_cons_of_mem _ hx)
      unfold filterReleasesByType
      rw [releaseMatches_compilation_eq A r hr, ih hrest]
      cases hs : specCompilationMatch A r
      · simp only [List.filter_cons, hs, Bool.false_eq_true, if_false]
        rfl
      · simp only [List.filter_cons, hs, if_true]
        rfl

/-- A small payload with an owned compilation, a plain album, a compilation
credited to another artist and a compilation with a missing artists list. -/
def sampleReleases : List Release :=
  [ { album_type := "compilation", artists := some [{ id := "A123" }] },
    { album_type := "album", artists := some [{ id := "A123" }] },
    { album_type := "compilation", artists := some [{ id := "B9" }] },
    { album_type := "compilation", artists := none } ]

/-- C1 (witness): the amended theorem applied to a concrete payload; only
the compilation whose first credited artist is `A123` survives. -/
theorem C1_filter_compilation_witness :
    filterReleasesByType sampleReleases "compilation" "A123"
      = .ok [{ album_type := "compilation", artists := some [{ id := "A123" }] }] := by
  rw [C1_filter_compilation_amended sampleReleases "A123" (by decide)]
  rfl

end ArtistReleases

namespace JsDate

/-! Model of `new Date(string)` on the ISO `YYYY-MM-DD` date strings this
application feeds it (date inputs, daterangepicker output, date table
cells). A parsed date is encoded as `y * 10000 + m * 100 + d`, whose `Nat`
order coincides with chronological order; `none` embeds an Invalid Date
(whose timestamp is NaN). -/

/-- Gregorian leap-year rule used by the ISO date grammar. -/
def isLeap (y : Nat) : Bool :=
  (y % 4 = 0 && y % 100 ≠ 0) || y % 400 = 0

/-- Number of days of month `m` of year `y`. -/
def daysInMonth (y m : Nat) : Nat :=
  if m = 2 then (if isLeap y then 29 else 28)
  else if m = 4 ∨ m = 6 ∨ m = 9 ∨ m = 11 then 30
  else 31

/-- Numeric value of a decimal digit character. -/
def digitVal (c : Char) : Option Nat :=
  if c.isDigit then some (c.toNat - 48) else none

/-- Parse `YYYY-MM-DD` into the encoded day `y * 10000 + m * 100 + d`;
anything else gives an Invalid Date (`none`). -/
def parseDate (s : String) : Option Nat :=
  match s.data with
  | [y1, y2, y3, y4, s1, m1, m2, s2, e1, e2] =>
      if s1 = '-' ∧ s2 = '-' then do
        let a ← digitVal y1
        let b ← digitVal y2
        let c ← digitVal y3
        let d ← digitVal y4
        let mt ← digitVal m1
        let mu ← digitVal m2
        let dt ← digitVal e1
        let du ← digitVal e2
        let y := ((a * 10 + b) * 10 + c) * 10 + d
        let m := mt * 10 + mu
        let day := dt * 10 + du
        if 1 ≤ m ∧ m ≤ 12 ∧ 1 ≤ day ∧ day ≤ daysInMonth y m then
          some (y * 10000 + m * 100 + day)
        else none
      else none
  | _ => none

end JsDate

namespace TableSort

/-! Model of the sortable-table scripts. `createComparer`/`getCellValue`
come from src/music/static/js/pages/artist_tracks.js (the two-branch
variant of src/unnamed/part_003 is the number/string fragment of the same
comparer); `albumComparer` comes from src/music/static/js/pages/album.js.
A table row is embedded as the list of its cell texts; `rows.sort(cmp)` is
embedded as a stable sort agreeing with the comparator, which is what the
JS `Array.prototype.sort` contract guarantees for consistent comparators.
Float arithmetic of the comparers is embedded with exact rationals. -/

/-- A table row, as the list of rendered cell texts. -/
abbrev Row := List String

/-- Scan a run of decimal digits: accumulated value, digit count, rest. -/
def takeDigits : List Char → Nat → Nat → Nat × Nat × List Char
  | [], acc, n => (acc, n, [])
  | c :: cs, acc, n =>
      if c.isDigit then takeDigits cs (acc * 10 + (c.toNat - 48)) (n + 1)
      else (acc, n, c :: cs)

/-- Model of `parseFloat` on the decimal forms (optional sign, digits,
optional fractional part) it is given here; exponent forms and `Infinity`
do not occur in these tables and are not modelled. The longest valid
prefix is parsed; `none` embeds NaN (no parsable prefix). -/
def jsParseFloat (s : String) : Option Rat :=
  let cs := s.data.dropWhile (fun c => c.isWhitespace)
  let (sign, cs1) : Rat × List Char :=
    match cs with
    | '-' :: t => (-1, t)
    | '+' :: t => (1, t)
    | t => (1, t)
  let (ip, ipLen, cs2) := takeDigits cs1 0 0
  match cs2 with
  | '.' :: t =>
      let (fp, fpLen, _) := takeDigits t 0 0
      if ipLen = 0 ∧ fpLen = 0 then none
      else some (sign * ((ip : Rat) + (fp : Rat) / (10 : Rat) ^ fpLen))
  | _ => if ipLen = 0 then none else some (sign * (ip : Rat))

/-- The sort key of a `number` column: `parseFloat(v) || 0`, i.e. NaN (and
0 itself) collapse to 0. -/
def numberKey (s : String) : Rat :=
  (jsParseFloat s).getD 0

/-- Model of `getCellValue`: the rendered text of cell `idx` of a row. -/
def getCellValue (tr : Row) (idx : Nat) : String :=
  tr.getD idx ""

/-- Model of `String.prototype.localeCompare`: a negative, zero or positive
number according to the collation order; collation is embedded as
code-point order. -/
def localeCompare (a b : String) : Rat :=
  if a < b then -1 else if b < a then 1 else 0

/-- The comparison function built by `createComparer` in artist_tracks.js:
branches on the data-sort attribute of the column header (`number`,
`string`, `date`, or the string fallback). A NaN comparator value (date
branch with an Invalid Date) is coerced to 0, as `Array.prototype.sort`
does with comparator results. -/
def createComparer (dataType : String) (idx : Nat) (asc : Bool)
    (rowA rowB : Row) : Rat :=
  let valueA := getCellValue rowA idx
  let valueB := getCellValue rowB idx
  let directionMultiplier : Rat := if asc then 1 else -1
  if dataType = "number" then
    (numberKey valueA - numberKey valueB) * directionMultiplier
  else if dataType = "string" then
    localeCompare valueA valueB * directionMultiplier
  else if dataType = "date" then
    match JsDate.parseDate valueA, JsDate.parseDate valueB with
    | some x, some y => ((x : Rat) - (y : Rat)) * directionMultiplier
    | _, _ => 0
  else
    localeCompare valueA valueB * directionMultiplier

/-- The comparison function built by `createComparer` in album.js: swaps
the two rows for descending order, compares numerically when both cell
texts are nonempty and parse as floats, otherwise falls back to the string
comparison. -/
def albumComparer (idx : Nat) (asc : Bool) (rowA rowB : Row) : Rat :=
  let valueA := getCellValue (if asc then rowA else rowB) idx
  let valueB := getCellValue (if asc then rowB else rowA) idx
  match jsParseFloat valueA, jsParseFloat valueB with
  | some numA, some numB =>
      if valueA ≠ "" ∧ valueB ≠ "" then numA - numB
      else localeCompare valueA valueB
  | _, _ => localeCompare valueA valueB

instance decidableCmpLe (cmp : Row → Row → Rat) :
    DecidableRel (fun a b => cmp a b ≤ 0) :=
  fun _ _ => inferInstance

/-- Model of `rows.sort(cmp)` followed by re-appending every row: the
resulting tbody contents. Embedded as a stable comparator-respecting sort
(insertion sort), as the `Array.prototype.sort` contract specifies. -/
def jsSortBy (cmp : Row → Row → Rat) (rows : List Row) : List Row :=
  List.insertionSort (fun a b => cmp a b ≤ 0) rows

/-- The tbody row order produced by a header click in artist_tracks.js. -/
def sortRowsArtistTracks (dataType : String) (idx : Nat) (asc : Bool)
    (rows : List Row) : List Row :=
  jsSortBy (createComparer dataType idx asc) rows

/-- The tbody row order produced by a header click in album.js. -/
def sortRowsAlbum (idx : Nat) (asc : Bool) (rows : List Row) : List Row :=
  jsSortBy (albumComparer idx asc) rows

/-- On a number column the comparer computes the signed key difference. -/
theorem createComparer_number (idx : Nat) (asc : Bool) (a b : Row) :
    createComparer "number" idx asc a b
      = (numberKey (getCellValue a idx) - numberKey (getCellValue b idx))
          * (if asc then 1 else -1) := by
  unfold createComparer
  rw [if_pos rfl]

/-- Ascending number comparison accepts a pair iff the keys are ordered. -/
theorem createComparer_number_le_asc (idx : Nat) (a b : Row) :
    (createComparer "number" idx true a b ≤ 0)
      ↔ numberKey (getCellValue a idx) ≤ numberKey (getCellValue b idx) := by
  rw [createComparer_number, if_pos rfl, mul_one]
  exact sub_nonpos

/-- Descending number comparison accepts a pair iff the keys are ordered
the other way. -/
theorem createComparer_number_le_desc (idx : Nat) (a b : Row) :
    (createComparer "number" idx false a b ≤ 0)
      ↔ numberKey (getCellValue b idx) ≤ numberKey (getCellValue a idx) := by
  rw [createComparer_number, if_neg (by simp), mul_neg_one, neg_sub]
  exact sub_nonpos

/-- Evaluation helper: a cell holding plain digits has its value as key. -/
theorem numberKey_lit (s : String) (n : Nat)
    (h : jsParseFloat s = some ((1 : Rat) * ((n : Nat) : Rat))) :
    numberKey s = n := by
  simp [numberKey, h]

/-- C2: sorting a number column orders rows by the float value of the cell
text (embedded as the exact rational `numberKey`), with unparseable values
collapsing to 0; ascending sorts the keys upward, descending downward, and
the concrete column `["10", "2", "33"]` comes out as `2, 10, 33` ascending
and `33, 10, 2` descending. -/
theorem C2_number_sort :
    (∀ s, jsParseFloat s = none → numberKey s = 0) ∧
    (∀ idx rows, (sortRowsArtistTracks "number" idx true rows).Pairwise
        (fun a b => numberKey (getCellValue a idx) ≤ numberKey (getCellValue b idx))) ∧
    (∀ idx rows, (sortRowsArtistTracks "number" idx false rows).Pairwise
        (fun a b => numberKey (getCellValue b idx) ≤ numberKey (getCellValue a idx))) ∧
    sortRowsArtistTracks "number" 0 true [["10"], ["2"], ["33"]]
      = [["2"], ["10"], ["33"]] ∧
    sortRowsArtistTracks "number" 0 false [["10"], ["2"], ["33"]]
      = [["33"], ["10"], ["2"]] := by
  have k10 : numberKey "10" = 10 := numberKey_lit _ 10 rfl
  have k2 : numberKey "2" = 2 := numberKey_lit _ 2 rfl
  have k33 : numberKey "33" = 33 := numberKey_lit _ 33 rfl
  refine ⟨fun s h => by simp [numberKey, h], ?_, ?_, ?_, ?_⟩
  · intro idx rows
    haveI ht : IsTrans Row (fun a b => createComparer "number" idx true a b ≤ 0) :=
      ⟨fun a b c hab hbc => (createComparer_number_le_asc idx a c).2
        (le_trans ((createComparer_number_le_asc idx a b).1 hab)
          ((createComparer_number_le_asc idx b c).1 hbc))⟩
    haveI hto : IsTotal Row (fun a b => createComparer "number" idx true a b ≤ 0) :=
      ⟨fun a b => by
        rcases le_total (numberKey (getCellValue a idx)) (numberKey (getCellValue b idx))
          with h | h
        · exact Or.inl ((createComparer_number_le_asc idx a b).2 h)
        · exact Or.inr ((createComparer_number_le_asc idx b a).2 h)⟩
    have hs := List.sorted_insertionSort
      (fun a b => createComparer "number" idx true a b ≤ 0) rows
    exact hs.imp (fun hab => (createComparer_number_le_asc idx _ _).1 hab)
  · intro idx rows
    haveI ht : IsTrans Row (fun a b => createComparer "number" idx false a b ≤ 0) :=
      ⟨fun a b c hab hbc => (createComparer_number_le_desc idx a c).2
        (le_trans ((createComparer_number_le_desc idx b c).1 hbc)
          ((createComparer_number_le_desc idx a b).1 hab))⟩
    haveI hto : IsTotal Row (fun a b => createComparer "number" idx false a b ≤ 0) :=
      ⟨fun a b => by
        rcases le_total (numberKey (getCellValue b idx)) (numberKey (getCellValue a idx))
          with h | h
        · exact Or.inl ((createComparer_number_le_desc idx a b).2 h)
        · exact Or.inr ((createComparer_number_le_desc idx b a).2 h)⟩
    have hs := List.sorted_insertionSort
      (fun a b => createComparer "number" idx false a b ≤ 0) rows
    exact hs.imp (fun hab => (createComparer_number_le_desc idx _ _).1 hab)
  · simp only [sortRowsArtistTracks, jsSortBy, List.insertionSort, List.orderedInsert,
      createComparer_number_le_asc, getCellValue, List.getD_cons_zero, k10, k2, k33]
    norm_num
  · simp only [sortRowsArtistTracks, jsSortBy, List.insertionSort, List.orderedInsert,
      createComparer_number_le_desc, getCellValue, List.getD_cons_zero, k10, k2, k33]
    norm_num

/-- C2 (witness): the first conjunct applied to the unparseable cell text
"abc", whose key is 0. -/
theorem C2_number_sort_witness : numberKey "abc" = 0 :=
  C2_number_sort.1 "abc" rfl

/-- C9: a header-click sort re-appends exactly the rows that were in the
table body: for both sorter implementations the resulting row sequence is
a permutation of the original row sequence, whatever the column, data type
and direction. -/
theorem C9_sort_permutation :
    (∀ dataType idx asc rows,
        (sortRowsArtistTracks dataType idx asc rows).Perm rows) ∧
    (∀ idx asc rows, (sortRowsAlbum idx asc rows).Perm rows) :=
  ⟨fun _ _ _ rows => List.perm_insertionSort _ rows,
   fun _ _ rows => List.perm_insertionSort _ rows⟩

end TableSort

namespace ItemStats

/-! Model of `loadStats` from src/music/static/js/partials/item_stats.js
(src/music/static/js/item_stats.js is the same handler with some updates
duplicated). The handler awaits the fetch, then awaits `response.json()`
with NO check of `response.ok`, then assigns the payload fields into the
eight stat elements; the whole body is wrapped in try/catch whose handler
only logs. Numeric payload fields are embedded as integers (Math.round on
them is then the identity); locale digit grouping of `toLocaleString` is
not modelled. -/

/-- Rendered text of the eight stat elements. -/
structure StatsDom where
  totalPlays : String
  totalMinutes : String
  peakPosition : String
  avgGap : String
  longestStreak : String
  peakDayPlays : String
  primeTime : String
  repeatRate : String
deriving Repr, DecidableEq

/-- Fields of a parsed JSON body, each possibly absent (undefined). -/
structure StatsData where
  total_plays : Option Int := none
  total_minutes : Option Int := none
  peak_position : Option Int := none
  avg_gap : Option Int := none
  longest_streak : Option Int := none
  peak_day_plays : Option Int := none
  prime_time : Option String := none
  repeat_rate : Option Int := none
deriving Repr, DecidableEq

/-- Assigning a possibly-undefined number to `textContent`: the DOM setter
turns undefined (via null) into the empty string. -/
def setTextNumber : Option Int → String
  | some n => toString n
  | none => ""

/-- `Math.round(x).toLocaleString()`: rounding undefined gives NaN, whose
string form is "NaN". -/
def roundToLocale : Option Int → String
  | some n => toString n
  | none => "NaN"

/-- A possibly-undefined number interpolated into a template literal:
undefined prints as "undefined". -/
def tmplNumber : Option Int → String
  | some n => toString n
  | none => "undefined"

/-- `Math.round` of a possibly-undefined number inside a template literal:
undefined rounds to NaN, printed "NaN". -/
def tmplRound : Option Int → String
  | some n => toString n
  | none => "NaN"

/-- The eight DOM assignments of `loadStats` applied to a parsed body. -/
def updateStatsDom (d : StatsData) : StatsDom where
  totalPlays := setTextNumber d.total_plays
  totalMinutes := roundToLocale d.total_minutes
  peakPosition := "#" ++ tmplNumber d.peak_position
  avgGap := tmplRound d.avg_gap ++ " hours"
  longestStreak := tmplNumber d.longest_streak ++ " days"
  peakDayPlays := setTextNumber d.peak_day_plays
  primeTime := (d.prime_time).getD ""
  repeatRate := tmplNumber d.repeat_rate ++ "%"

/-- Body of a resolved fetch: a JSON-parsable payload or not. -/
inductive Body where
  | json (d : StatsData)
  | notJson
deriving Repr, DecidableEq

/-- Observable outcome of the stats fetch: a rejected promise (network
error) or a response with its `ok` flag and body. -/
inductive FetchOutcome where
  | networkError
  | response (ok : Bool) (body : Body)
deriving Repr, DecidableEq

/-- Model of `loadStats`: the new DOM state and whether the catch block
logged an error. A rejected fetch or a body that fails to parse throws and
is caught (DOM untouched, error logged); any response with a JSON body —
the `ok` flag is never consulted — overwrites all eight stats. -/
def loadStats (dom : StatsDom) (r : FetchOutcome) : StatsDom × Bool :=
  match r with
  | .networkError => (dom, true)
  | .response _ .notJson => (dom, true)
  | .response _ (.json d) => (updateStatsDom d, false)

/-- Failure in the sense of the claim: network error or non-2xx response. -/
def failedFetch : FetchOutcome → Prop
  | .networkError => True
  | .response ok _ => ok = false

/-- DOM state with previously displayed values, for the counterexample. -/
def displayedDom : StatsDom :=
  { totalPlays := "42", totalMinutes := "1,234", peakPosition := "#1",
    avgGap := "5 hours", longestStreak := "3 days", peakDayPlays := "7",
    primeTime := "18:00", repeatRate := "25%" }

/-- C3 (counterexample): a non-2xx response whose body parses as JSON (for
example an error object) is a failed fetch in the sense of the claim, yet
`loadStats` overwrites the previously displayed stats — total plays
becomes empty, peak position becomes "#undefined" — and logs no error, so
the claim as stated is false. -/
theorem C3_failed_fetch_counterexample :
    failedFetch (FetchOutcome.response false (Body.json {})) ∧
    loadStats displayedDom (FetchOutcome.response false (Body.json {}))
      ≠ (displayedDom, true) ∧
    (loadStats displayedDom (FetchOutcome.response false (Body.json {}))).1.totalPlays
      = "" ∧
    (loadStats displayedDom (FetchOutcome.response false (Body.json {}))).1.peakPosition
      = "#undefined" ∧
    (loadStats displayedDom (FetchOutcome.response false (Body.json {}))).2 = false := by
  exact ⟨rfl, by decide, rfl, rfl, rfl⟩

/-- C3 (amended): `loadStats` never checks `response.ok`. A network error,
or any response whose body fails to parse as JSON (the usual shape of an
HTML error page), is caught: the error is logged and every displayed stat
keeps its previous value. But any response with a JSON body — 2xx or not —
overwrites all eight displayed stats from the payload (absent fields
rendering as empty, "undefined" or "NaN" strings) and logs nothing. -/
theorem C3_failed_fetch_amended :
    (∀ dom, loadStats dom FetchOutcome.networkError = (dom, true)) ∧
    (∀ dom ok, loadStats dom (FetchOutcome.response ok Body.notJson) = (dom, true)) ∧
    (∀ dom ok d, loadStats dom (FetchOutcome.response ok (Body.json d))
      = (updateStatsDom d, false)) :=
  ⟨fun _ => rfl, fun _ _ => rfl, fun _ _ _ => rfl⟩

end ItemStats

namespace ScrollRestore

/-! Model of the scroll-position persistence: the save line of the
custom-range submit handler in src/music/static/js/pages/home.js
(`sessionStorage.setItem("scrollPosition", window.scrollY.toString())`)
and the restore block of the DOMContentLoaded handler in
src/music/static/js/partials/item_stats.js (`if (getItem) { scrollTo(0,
parseInt(getItem)); removeItem }`). The scroll offset is embedded as a
natural number; `toString` and `parseInt` are modelled on the decimal
digit strings this feature stores. -/

/-- Decimal rendering of a natural number, as `Number.prototype.toString`
produces it. -/
def natToString (n : Nat) : String :=
  if n = 0 then "0"
  else String.mk ((Nat.digits 10 n).reverse.map (fun d => Char.ofNat (48 + d)))

/-- Accumulator loop of `parseInt`: consume leading decimal digits. -/
def parseIntGo : List Char → Nat → Nat
  | [], acc => acc
  | c :: cs, acc =>
      if c.isDigit then parseIntGo cs (acc * 10 + (c.toNat - 48))
      else acc

/-- Model of `parseInt` on nonnegative decimal strings (the only strings
this feature ever stores); a string with no leading digit gives NaN in JS,
which `scrollTo` then coerces to 0, the value this model returns. -/
def jsParseIntNat (s : String) : Nat :=
  parseIntGo s.data 0

/-- The session-scoped storage cell and the scroll offset of the page. -/
structure PageView where
  storage : Option String
  scrollY : Nat
deriving Repr, DecidableEq

/-- The save line run on successful custom-range validation. -/
def saveScrollPosition (st : PageView) : PageView :=
  { st with storage := some (natToString st.scrollY) }

/-- The restore block run on page load: a truthy stored value (non-null,
nonempty) is parsed, the page is scrolled there and the value removed;
otherwise nothing happens. -/
def restoreScrollOnLoad (st : PageView) : PageView :=
  match st.storage with
  | some v => if v ≠ "" then { storage := none, scrollY := jsParseIntNat v } else st
  | none => st

theorem parseIntGo_append (l1 l2 : List Char) (acc : Nat)
    (h : ∀ c ∈ l1, c.isDigit = true) :
    parseIntGo (l1 ++ l2) acc = parseIntGo l2 (parseIntGo l1 acc) := by
  induction l1 generalizing acc with
  | nil => rfl
  | cons c cs ih =>
      have hc := h c (List.mem_cons_self c cs)
      have hcs := fun x hx => h x (List.mem_cons_of_mem _ hx)
      simp only [List.cons_append, parseIntGo, hc, if_true]
      exact ih _ hcs

theorem digitChar_isDigit {d : Nat} (h : d < 10) :
    (Char.ofNat (48 + d)).isDigit = true := by
  interval_cases d <;> decide

theorem digitChar_toNat {d : Nat} (h : d < 10) :
    (Char.ofNat (48 + d)).toNat - 48 = d := by
  interval_cases d <;> decide

theorem parseIntGo_digits (L : List Nat) (h : ∀ d ∈ L, d < 10) (acc : Nat) :
    parseIntGo (L.reverse.map (fun d => Char.ofNat (48 + d))) acc
      = acc * 10 ^ L.length + Nat.ofDigits 10 L := by
  induction L generalizing acc with
  | nil => simp [parseIntGo, Nat.ofDigits]
  | cons d T ih =>
      have hd := h d (List.mem_cons_self d T)
      have hT := fun x hx => h x (List.mem_cons_of_mem _ hx)
      have hdigits : ∀ c ∈ T.reverse.map (fun e => Char.ofNat (48 + e)),
          c.isDigit = true := by
        intro c hc
        rcases List.mem_map.1 hc with ⟨e, he, rfl⟩
        exact digitChar_isDigit (hT e (List.mem_reverse.1 he))
      rw [List.reverse_cons, List.map_append,
          parseIntGo_append _ _ acc hdigits, ih hT acc]
      simp only [List.map_cons, List.map_nil, parseIntGo,
        digitChar_isDigit hd, if_true, digitChar_toNat hd]
      rw [Nat.ofDigits_cons]
      simp only [List.length_cons, pow_succ]
      ring

/-- Round trip of the decimal encoding: parsing the stored string gives
back the stored scroll offset. -/
theorem jsParseIntNat_natToString (n : Nat) :
    jsParseIntNat (natToString n) = n := by
  by_cases h0 : n = 0
  · subst h0; rfl
  · unfold natToString jsParseIntNat
    rw [if_neg h0]
    have h : ∀ d ∈ Nat.digits 10 n, d < 10 :=
      fun d hd => Nat.digits_lt_base (by norm_num) hd
    have hgo := parseIntGo_digits (Nat.digits 10 n) h 0
    simpa [Nat.ofDigits_digits] using hgo

/-- The stored string is truthy: it is never empty. -/
theorem natToString_ne_empty (n : Nat) : natToString n ≠ "" := by
  unfold natToString
  by_cases h0 : n = 0
  · simp [h0]
  · rw [if_neg h0]
    intro hcontra
    have hlist : (Nat.digits 10 n).reverse.map (fun d => Char.ofNat (48 + d)) = [] := by
      have := congrArg String.data hcontra
      simpa using this
    have : Nat.digits 10 n = [] := by
      simpa using hlist
    exact h0 (Nat.digits_eq_nil_iff_eq_zero.1 this)

/-- C4: a successful custom-range submission writes the scroll offset to
session storage; the restore block of the next page load scrolls back to
exactly that offset and removes the stored value, so a further load (with
the cell now empty) performs no restore. -/
theorem C4_scroll_restore_once (st : PageView) (y z : Nat) :
    (restoreScrollOnLoad { storage := (saveScrollPosition st).storage, scrollY := y })
      = { storage := none, scrollY := st.scrollY } ∧
    (restoreScrollOnLoad { storage := none, scrollY := z })
      = { storage := none, scrollY := z } := by
  constructor
  · show restoreScrollOnLoad { storage := some (natToString st.scrollY), scrollY := y } = _
    have h1 : restoreScrollOnLoad { storage := some (natToString st.scrollY), scrollY := y }
        = if natToString st.scrollY ≠ "" then
            { storage := none, scrollY := jsParseIntNat (natToString st.scrollY) }
          else { storage := some (natToString st.scrollY), scrollY := y } := rfl
    rw [h1, if_pos (natToString_ne_empty st.scrollY), jsParseIntNat_natToString]
  · rfl

end ScrollRestore

namespace SortToggle

/-! Model of the sort-direction toggle state of the two sorter variants.
In src/music/static/js/pages/artist_tracks.js the state lives in the
`asc`/`desc` classes of the header cells: a click reads the clicked header
(`isAscending = !th.classList.contains("asc")`), removes both classes from
every header, then sets the clicked header. In
src/music/static/js/pages/album.js the state is a per-header closure
variable `isAscending` that a click simply negates; no other header is
touched. -/

/-- The `asc`/`desc` classes of one header cell. -/
structure HeaderFlags where
  asc : Bool
  desc : Bool
deriving Repr, DecidableEq

/-- A header with neither sort class. -/
def clearedFlags : HeaderFlags :=
  { asc := false, desc := false }

/-- The artist-tracks click handler on header `i`: new header classes and
the direction used for the sort (`true` = ascending). -/
def clickHeader (hs : List HeaderFlags) (i : Nat) : List HeaderFlags × Bool :=
  let isAscending := !(hs.getD i clearedFlags).asc
  let cleared := hs.map (fun _ => clearedFlags)
  (cleared.set i { asc := isAscending, desc := !isAscending }, isAscending)

/-- The album click handler on header `i`: the list of per-header closure
toggles and the direction used. -/
def clickHeaderAlbum (st : List Bool) (i : Nat) : List Bool × Bool :=
  let isAscending := !(st.getD i false)
  (st.set i isAscending, isAscending)

/-- C5 (counterexample): in the album sorter, after clicking header 0 and
then header 1 (both ascending), a further click on header 0 — a different
header than the one clicked before — sorts descending, and the click on
header 1 left the toggle state of header 0 set instead of clearing it; so
the claim is false for the album tables. -/
theorem C5_toggle_counterexample :
    clickHeaderAlbum [false, false] 0 = ([true, false], true) ∧
    clickHeaderAlbum [true, false] 1 = ([true, true], true) ∧
    (clickHeaderAlbum [true, true] 0).2 = false ∧
    (clickHeaderAlbum [true, false] 1).1.getD 0 false = true := by
  exact ⟨rfl, rfl, rfl, rfl⟩

/-- C5 (amended): in the artist-tracks sorter, repeated clicks on the same
header alternate the direction, a click on any header clears the sort
classes of every other header, and a click on a header whose `asc` class
is clear — in particular any header other than the one clicked before —
sorts ascending. In the album sorter, repeated clicks on the same header
alternate, but a click does not clear the toggle state of other headers and
a click on a different header resumes the previous toggle of that header
instead of starting ascending. -/
theorem C5_toggle_amended :
    (∀ hs i, i < hs.length →
      (clickHeader (clickHeader hs i).1 i).2 = !(clickHeader hs i).2) ∧
    (∀ (hs : List HeaderFlags) j i, i ≠ j →
      (clickHeader hs j).1.getD i clearedFlags = clearedFlags) ∧
    (∀ hs i, (hs.getD i clearedFlags).asc = false → (clickHeader hs i).2 = true) ∧
    (∀ (hs : List HeaderFlags) j i, i ≠ j →
      (clickHeader (clickHeader hs j).1 i).2 = true) ∧
    (∀ st i, i < st.length →
      (clickHeaderAlbum (clickHeaderAlbum st i).1 i).2 = !(clickHeaderAlbum st i).2) := by
  have hclear : ∀ (hs : List HeaderFlags) j i, i ≠ j →
      (clickHeader hs j).1.getD i clearedFlags = clearedFlags := by
    intro hs j i hij
    unfold clickHeader
    rw [List.getD_eq_getElem?_getD, List.getElem?_set_ne (fun h => hij h.symm),
        List.getElem?_map]
    cases hs[i]? <;> rfl
  have hasc : ∀ hs i, (hs.getD i clearedFlags).asc = false →
      (clickHeader hs i).2 = true := by
    intro hs i h
    show (!(hs.getD i clearedFlags).asc) = true
    rw [h]
    rfl
  refine ⟨?_, hclear, hasc, ?_, ?_⟩
  · intro hs i hi
    show (!((clickHeader hs i).1.getD i clearedFlags).asc) = (!(clickHeader hs i).2)
    unfold clickHeader
    rw [List.getD_eq_getElem?_getD,
        List.getElem?_set_self (by simpa using hi)]
    rfl
  · intro hs j i hij
    exact hasc _ i (by rw [hclear hs j i hij]; rfl)
  · intro st i hi
    show (!((clickHeaderAlbum st i).1.getD i false)) = (!(clickHeaderAlbum st i).2)
    unfold clickHeaderAlbum
    rw [List.getD_eq_getElem?_getD, List.getElem?_set_self (by simpa using hi)]
    rfl

/-- C5 (witness): the amended theorem at concrete two-header tables: the
second click on header 0 of the artist-tracks table descends after an
ascending first click, a click on header 1 leaves header 0 cleared, a
click on a cleared header 0 ascends, and the album toggles alternate. -/
theorem C5_toggle_witness :
    (clickHeader (clickHeader [clearedFlags, clearedFlags] 0).1 0).2
      = !(clickHeader [clearedFlags, clearedFlags] 0).2 ∧
    (clickHeader [clearedFlags, clearedFlags] 1).1.getD 0 clearedFlags = clearedFlags ∧
    (clickHeader (clickHeader [clearedFlags, clearedFlags] 1).1 0).2 = true ∧
    (clickHeaderAlbum (clickHeaderAlbum [false, false] 0).1 0).2
      = !(clickHeaderAlbum [false, false] 0).2 :=
  ⟨C5_toggle_amended.1 [clearedFlags, clearedFlags] 0 (by decide),
   C5_toggle_amended.2.1 [clearedFlags, clearedFlags] 1 0 (by decide),
   C5_toggle_amended.2.2.2.1 [clearedFlags, clearedFlags] 1 0 (by decide),
   C5_toggle_amended.2.2.2.2 [false, false] 0 (by decide)⟩

end SortToggle

namespace DateRange

/-! Model of the submit-validation chain of `initializeCustomDateRange` in
src/music/static/js/pages/home.js: empty-field check, `new Date` parse
with NaN check, future check against `new Date()` (now), and order check.
Comparisons of the midnight timestamps `new Date("YYYY-MM-DD")` and of the
current instant reduce to comparisons of the encoded `JsDate` day values,
so `today` is passed as the encoded current date. -/

/-- Outcome of a submit event: blocked with the displayed inline message
(`preventDefault` plus the error container text), or the submission
proceeds. -/
inductive SubmitResult where
  | blocked (msg : String)
  | proceed
deriving Repr, DecidableEq

/-- The validation chain of the submit handler. -/
def validateCustomRange (startStr endStr : String) (today : Nat) : SubmitResult :=
  if startStr = "" ∨ endStr = "" then
    .blocked "Both start date and end date are required."
  else
    match JsDate.parseDate startStr, JsDate.parseDate endStr with
    | none, _ => .blocked "Please enter valid dates in YYYY-MM-DD format."
    | some _, none => .blocked "Please enter valid dates in YYYY-MM-DD format."
    | some s, some e =>
        if today < s ∨ today < e then .blocked "Dates cannot be in the future."
        else if e < s then .blocked "Start date must be before end date."
        else .proceed

/-- The blocking condition as the claim states it: a field empty, a value
unparseable, a date in the future, or start after end. -/
def blockCondition (startStr endStr : String) (today : Nat) : Prop :=
  startStr = "" ∨ endStr = "" ∨
    JsDate.parseDate startStr = none ∨ JsDate.parseDate endStr = none ∨
    ∃ s e, JsDate.parseDate startStr = some s ∧ JsDate.parseDate endStr = some e ∧
      (today < s ∨ today < e ∨ e < s)

theorem proceed_iff_no_block_message (r : SubmitResult) :
    r = .proceed ↔ ¬ ∃ m, r = .blocked m := by
  cases r with
  | blocked m => simp
  | proceed => simp

/-- C6: a custom date-range submission is blocked with an inline message
exactly when a field is empty, a value does not parse as a date, a date is
in the future, or the start date is after the end date; otherwise the
submission proceeds. -/
theorem C6_date_validation (startStr endStr : String) (today : Nat) :
    ((∃ msg, validateCustomRange startStr endStr today = .blocked msg)
        ↔ blockCondition startStr endStr today) ∧
    (validateCustomRange startStr endStr today = .proceed
        ↔ ¬ blockCondition startStr endStr today) := by
  have main : (∃ msg, validateCustomRange startStr endStr today = .blocked msg)
      ↔ blockCondition startStr endStr today := by
    unfold validateCustomRange blockCondition
    by_cases h1 : startStr = "" ∨ endStr = ""
    · rw [if_pos h1]
      exact iff_of_true ⟨_, rfl⟩ (h1.elim Or.inl (fun h => Or.inr (Or.inl h)))
    · rw [if_neg h1]
      push_neg at h1
      obtain ⟨ha, hb⟩ := h1
      cases hpa : JsDate.parseDate startStr with
      | none =>
          exact iff_of_true ⟨_, rfl⟩ (Or.inr (Or.inr (Or.inl rfl)))
      | some s =>
          cases hpb : JsDate.parseDate endStr with
          | none =>
              exact iff_of_true ⟨_, rfl⟩ (Or.inr (Or.inr (Or.inr (Or.inl rfl))))
          | some e =>
              dsimp only
              by_cases h2 : today < s ∨ today < e
              · rw [if_pos h2]
                refine iff_of_true ⟨_, rfl⟩ ?_
                exact Or.inr (Or.inr (Or.inr (Or.inr
                  ⟨s, e, rfl, rfl, h2.elim Or.inl (fun h => Or.inr (Or.inl h))⟩)))
              · rw [if_neg h2]
                by_cases h3 : e < s
                · rw [if_pos h3]
                  exact iff_of_true ⟨_, rfl⟩ (Or.inr (Or.inr (Or.inr (Or.inr
                    ⟨s, e, rfl, rfl, Or.inr (Or.inr h3)⟩))))
                · rw [if_neg h3]
                  refine iff_of_false (by simp) ?_
                  rintro (h | h | h | h | ⟨s', e', hs', he', hcmp⟩)
                  · exact ha h
                  · exact hb h
                  · exact Option.noConfusion h
                  · exact Option.noConfusion h
                  · obtain rfl := Option.some.inj hs'
                    obtain rfl := Option.some.inj he'
                    rcases hcmp with h | h | h
                    · exact h2 (Or.inl h)
                    · exact h2 (Or.inr h)
                    · exact h3 h
  exact ⟨main, (proceed_iff_no_block_message _).trans (not_congr main)⟩

end DateRange

namespace ChartRegistry

/-! Model of `createOrUpdateChart` from
src/music/static/js/partials/item_stats.js. The module-global
`chartInstances` object maps a canvas id to the chart handle last stored
for it; the helper returns early when the canvas or the data element is
missing, destroys a previously registered instance, then parses the JSON
island and calls the chart creator, storing the fresh handle; parse and
creator throws are caught and logged. The embedding adds a ledger of every
handle ever created and of the destroyed ones, so liveness of handles can
be stated; a handle is live when created and not destroyed. -/

/-- Registry object, destruction ledger and creation ledger. `created`
pairs each constructed handle with its canvas id, newest first; `next` is
the next fresh handle. -/
structure RegState where
  created : List (Nat × String)
  dead : List Nat
  registry : List (String × Nat)
  next : Nat
deriving Repr, DecidableEq

/-- Property read `chartInstances[canvasId]`. -/
def lookupReg (reg : List (String × Nat)) (id : String) : Option Nat :=
  match reg with
  | [] => none
  | (k, v) :: rest => if k = id then some v else lookupReg rest id

/-- Property write `chartInstances[canvasId] = h`. -/
def setReg (reg : List (String × Nat)) (id : String) (h : Nat) :
    List (String × Nat) :=
  (id, h) :: reg.filter (fun p => decide (p.1 ≠ id))

/-- One invocation of `createOrUpdateChart` for `canvasId`. The four flags
are the observable environment: whether `getElementById` finds the canvas
and the data element, and whether `JSON.parse` and the chart creator
succeed. -/
def createOrUpdateChart (st : RegState) (canvasId : String) :
    Bool → Bool → Bool → Bool → RegState
  | false, _, _, _ => st
  | true, false, _, _ => st
  | true, true, parseOk, creatorOk =>
      let st1 :=
        match lookupReg st.registry canvasId with
        | some h => { st with dead := h :: st.dead }
        | none => st
      match parseOk, creatorOk with
      | false, _ => st1
      | true, false => st1
      | true, true =>
          { created := (st1.next, canvasId) :: st1.created,
            dead := st1.dead,
            registry := setReg st1.registry canvasId st1.next,
            next := st1.next + 1 }

/-- Registry invariant: every created handle is destroyed or is the handle
the registry currently holds for its canvas id. -/
def chartInv (st : RegState) : Bool :=
  st.created.all (fun p =>
    decide (p.1 ∈ st.dead) || decide (lookupReg st.registry p.2 = some p.1))

/-- At most one live (created and not destroyed) chart handle exists per
canvas id. -/
def atMostOneLivePerCanvas (st : RegState) : Prop :=
  ∀ h1 h2 id, (h1, id) ∈ st.created → (h2, id) ∈ st.created →
    h1 ∉ st.dead → h2 ∉ st.dead → h1 = h2

theorem lookupReg_setReg_self (reg : List (String × Nat)) (id : String) (h : Nat) :
    lookupReg (setReg reg id h) id = some h := by
  simp [setReg, lookupReg]

theorem lookupReg_filter_ne (reg : List (String × Nat)) (id id' : String)
    (hne : id' ≠ id) :
    lookupReg (reg.filter (fun p => decide (p.1 ≠ id))) id' = lookupReg reg id' := by
  induction reg with
  | nil => rfl
  | cons p rest ih =>
      obtain ⟨k, v⟩ := p
      by_cases hk : k = id
      · rw [List.filter_cons_of_neg (by simpa using hk)]
        rw [ih]
        have hne2 : ¬ k = id' := fun hco => hne (hco ▸ hk ▸ rfl)
        rw [lookupReg, if_neg hne2]
      · rw [List.filter_cons_of_pos (by simpa using hk)]
        by_cases hk' : k = id'
        · rw [lookupReg, if_pos hk', lookupReg, if_pos hk']
        · rw [lookupReg, if_neg hk', lookupReg, if_neg hk', ih]

theorem lookupReg_setReg_ne (reg : List (String × Nat)) (id id' : String)
    (h : Nat) (hne : id' ≠ id) :
    lookupReg (setReg reg id h) id' = lookupReg reg id' := by
  rw [setReg, lookupReg, if_neg (fun hco => hne hco.symm)]
  exact lookupReg_filter_ne reg id id' hne

theorem chartInv_atMostOneLive (st : RegState) (hinv : chartInv st = true) :
    atMostOneLivePerCanvas st := by
  simp only [chartInv, List.all_eq_true, Bool.or_eq_true, decide_eq_true_eq] at hinv
  intro h1 h2 id m1 m2 d1 d2
  rcases hinv (h1, id) m1 with hc | hc
  · exact absurd hc d1
  rcases hinv (h2, id) m2 with hc' | hc'
  · exact absurd hc' d2
  exact Option.some.inj (hc.symm.trans hc')

theorem step_none_fail (st : RegState) (canvasId : String)
    (parseOk creatorOk : Bool)
    (hlk : lookupReg st.registry canvasId = none)
    (hfail : parseOk = false ∨ creatorOk = false) :
    createOrUpdateChart st canvasId true true parseOk creatorOk = st := by
  unfold createOrUpdateChart
  rw [hlk]
  rcases hfail with rfl | rfl
  · rfl
  · cases parseOk <;> rfl

theorem step_none_ok (st : RegState) (canvasId : String)
    (hlk : lookupReg st.registry canvasId = none) :
    createOrUpdateChart st canvasId true true true true
      = { created := (st.next, canvasId) :: st.created, dead := st.dead,
          registry := setReg st.registry canvasId st.next, next := st.next + 1 } := by
  unfold createOrUpdateChart
  rw [hlk]

theorem step_some_fail (st : RegState) (canvasId : String) (hOld : Nat)
    (parseOk creatorOk : Bool)
    (hlk : lookupReg st.registry canvasId = some hOld)
    (hfail : parseOk = false ∨ creatorOk = false) :
    createOrUpdateChart st canvasId true true parseOk creatorOk
      = { st with dead := hOld :: st.dead } := by
  unfold createOrUpdateChart
  rw [hlk]
  rcases hfail with rfl | rfl
  · rfl
  · cases parseOk <;> rfl

theorem step_some_ok (st : RegState) (canvasId : String) (hOld : Nat)
    (hlk : lookupReg st.registry canvasId = some hOld) :
    createOrUpdateChart st canvasId true true true true
      = { created := (st.next, canvasId) :: st.created, dead := hOld :: st.dead,
          registry := setReg st.registry canvasId st.next, next := st.next + 1 } := by
  unfold createOrUpdateChart
  rw [hlk]

/-- C7: each invocation of `createOrUpdateChart` preserves the registry
invariant — hence afterwards at most one live chart handle exists per
canvas id — and whenever the canvas and the data element are present, the
handle previously registered for the canvas id is destroyed during the
invocation (the destroy precedes any creation in the source). -/
theorem C7_chart_registry (st : RegState) (canvasId : String)
    (ctxPresent dataPresent parseOk creatorOk : Bool)
    (hinv : chartInv st = true) :
    chartInv (createOrUpdateChart st canvasId ctxPresent dataPresent parseOk creatorOk)
      = true ∧
    atMostOneLivePerCanvas
      (createOrUpdateChart st canvasId ctxPresent dataPresent parseOk creatorOk) ∧
    (∀ h, lookupReg st.registry canvasId = some h → ctxPresent = true →
      dataPresent = true →
      h ∈ (createOrUpdateChart st canvasId ctxPresent dataPresent parseOk creatorOk).dead) := by
  cases ctxPresent with
  | false =>
      exact ⟨hinv, chartInv_atMostOneLive _ hinv, fun h _ hco => Bool.noConfusion hco⟩
  | true =>
  cases dataPresent with
  | false =>
      exact ⟨hinv, chartInv_atMostOneLive _ hinv, fun h _ _ hco => Bool.noConfusion hco⟩
  | true =>
  cases hlk : lookupReg st.registry canvasId with
  | none =>
      cases parseOk with
      | false =>
          rw [step_none_fail st canvasId false creatorOk hlk (Or.inl rfl)]
          exact ⟨hinv, chartInv_atMostOneLive _ hinv, fun h hco => Option.noConfusion hco⟩
      | true =>
      cases creatorOk with
      | false =>
          rw [step_none_fail st canvasId true false hlk (Or.inr rfl)]
          exact ⟨hinv, chartInv_atMostOneLive _ hinv, fun h hco => Option.noConfusion hco⟩
      | true =>
          rw [step_none_ok st canvasId hlk]
          have hnew : chartInv
              { created := (st.next, canvasId) :: st.created, dead := st.dead,
                registry := setReg st.registry canvasId st.next, next := st.next + 1 }
              = true := by
            simp only [chartInv, List.all_eq_true, Bool.or_eq_true,
              decide_eq_true_eq] at hinv ⊢
            intro p hp
            rcases List.mem_cons.1 hp with rfl | hp'
            · exact Or.inr (by simp [lookupReg_setReg_self])
            · rcases hinv p hp' with hd | hl
              · exact Or.inl hd
              · by_cases hid : p.2 = canvasId
                · rw [hid] at hl
                  exact Option.noConfusion (hl.symm.trans hlk)
                · exact Or.inr (by rw [lookupReg_setReg_ne _ _ _ _ hid]; exact hl)
          exact ⟨hnew, chartInv_atMostOneLive _ hnew, fun h hco => Option.noConfusion hco⟩
  | some hOld =>
      have hdestroy : chartInv { st with dead := hOld :: st.dead } = true := by
        simp only [chartInv, List.all_eq_true, Bool.or_eq_true,
          decide_eq_true_eq] at hinv ⊢
        intro p hp
        rcases hinv p hp with hd | hl
        · exact Or.inl (List.mem_cons_of_mem _ hd)
        · exact Or.inr hl
      cases parseOk with
      | false =>
          rw [step_some_fail st canvasId hOld false creatorOk hlk (Or.inl rfl)]
          refine ⟨hdestroy, chartInv_atMostOneLive _ hdestroy, ?_⟩
          intro h hco _ _
          obtain rfl := Option.some.inj hco
          exact List.mem_cons_self _ _
      | true =>
      cases creatorOk with
      | false =>
          rw [step_some_fail st canvasId hOld true false hlk (Or.inr rfl)]
          refine ⟨hdestroy, chartInv_atMostOneLive _ hdestroy, ?_⟩
          intro h hco _ _
          obtain rfl := Option.some.inj hco
          exact List.mem_cons_self _ _
      | true =>
          rw [step_some_ok st canvasId hOld hlk]
          have hnew : chartInv
              { created := (st.next, canvasId) :: st.created, dead := hOld :: st.dead,
                registry := setReg st.registry canvasId st.next, next := st.next + 1 }
              = true := by
            simp only [chartInv, List.all_eq_true, Bool.or_eq_true,
              decide_eq_true_eq] at hinv ⊢
            intro p hp
            rcases List.mem_cons.1 hp with rfl | hp'
            · exact Or.inr (by simp [lookupReg_setReg_self])
            · rcases hinv p hp' with hd | hl
              · exact Or.inl (List.mem_cons_of_mem _ hd)
              · by_cases hid : p.2 = canvasId
                · rw [hid] at hl
                  have hph : p.1 = hOld := Option.some.inj (hl.symm.trans hlk)
                  exact Or.inl (by rw [hph]; exact List.mem_cons_self _ _)
                · exact Or.inr (by rw [lookupReg_setReg_ne _ _ _ _ hid]; exact hl)
          refine ⟨hnew, chartInv_atMostOneLive _ hnew, ?_⟩
          intro h hco _ _
          obtain rfl := Option.some.inj hco
          exact List.mem_cons_self _ _

/-- C7 (witness): the theorem applied to the empty registry, the canvas id
of the streaming-trend chart and a fully successful invocation. -/
theorem C7_chart_registry_witness :
    chartInv (createOrUpdateChart
        { created := [], dead := [], registry := [], next := 0 }
        "streamingTrendChart" true true true true) = true ∧
    atMostOneLivePerCanvas (createOrUpdateChart
        { created := [], dead := [], registry := [], next := 0 }
        "streamingTrendChart" true true true true) ∧
    (∀ h, lookupReg ({ created := [], dead := [], registry := [], next := 0 } :
          RegState).registry "streamingTrendChart" = some h → true = true →
      true = true →
      h ∈ (createOrUpdateChart
        { created := [], dead := [], registry := [], next := 0 }
        "streamingTrendChart" true true true true).dead) :=
  C7_chart_registry { created := [], dead := [], registry := [], next := 0 }
    "streamingTrendChart" true true true true rfl

end ChartRegistry

namespace TrackPreview

/-! Model of `loadTrackPreviews` and `updateTrackPreviews` from
src/music/static/js/pages/track.js. The click handler disables the "show
previews" button and sets its label to "Loading..." before awaiting the
load; the load either fails (rejected fetch, `!response.ok`, or a body
that fails to parse as JSON) — caught by the catch block, which logs,
sets the error label and re-enables the button — or succeeds, filling
each track-card placeholder and setting the success label while the
button stays disabled. -/

/-- A similar-track card: its data-track-id and the HTML of its
preview placeholder. -/
structure Card where
  trackId : String
  placeholder : String
deriving Repr, DecidableEq

/-- The disabled flag and text of the "show previews" button. -/
structure PreviewButton where
  disabled : Bool
  label : String
deriving Repr, DecidableEq

/-- Observable outcome of the preview fetch. The body maps track ids to
preview URLs; a value may be null (`some none`); `none` as the whole body
embeds a response that fails to parse as JSON. -/
inductive PreviewOutcome where
  | networkError
  | response (ok : Bool) (body : Option (List (String × Option String)))
deriving Repr, DecidableEq

/-- JS truthiness of `previewData[trackId]`: the property must be present,
non-null and a nonempty string. -/
def truthyUrl : Option (Option String) → Option String
  | some (some url) => if url = "" then none else some url
  | _ => none

/-- The audio-player markup written into a placeholder. -/
def audioPlayerHtml (url : String) : String :=
  "<audio controls><source src=\"" ++ url ++
    "\" type=\"audio/mpeg\">Your browser does not support the audio element.</audio>"

/-- The markup written when no preview URL is available. -/
def noPreviewHtml : String :=
  "<p class=\"text-muted\">No preview available</p>"

/-- The per-card body of `updateTrackPreviews`. -/
def updateCard (previewData : List (String × Option String)) (card : Card) : Card :=
  match truthyUrl (previewData.lookup card.trackId) with
  | some url => { card with placeholder := audioPlayerHtml url }
  | none => { card with placeholder := noPreviewHtml }

/-- `updateTrackPreviews`: every card placeholder is rewritten. -/
def updateTrackPreviews (previewData : List (String × Option String))
    (cards : List Card) : List Card :=
  cards.map (updateCard previewData)

/-- The whole click interaction: button state and card list afterwards. -/
def clickShowPreviews (cards : List Card) (outcome : PreviewOutcome) :
    PreviewButton × List Card :=
  match outcome with
  | .networkError =>
      ({ disabled := false, label := "Error Loading Previews" }, cards)
  | .response false _ =>
      ({ disabled := false, label := "Error Loading Previews" }, cards)
  | .response true none =>
      ({ disabled := false, label := "Error Loading Previews" }, cards)
  | .response true (some previewData) =>
      ({ disabled := true, label := "Previews Loaded" },
        updateTrackPreviews previewData cards)

/-- Failure in the sense of the claim: rejected fetch, non-2xx response,
or a body that fails to parse. -/
def failedLoad : PreviewOutcome → Prop
  | .networkError => True
  | .response ok body => ok = false ∨ body = none

/-- C8: a failed preview load re-enables the button with the error label
and leaves the cards untouched; a successful load keeps the button
disabled with the success label and fills each placeholder with an audio
player when a (truthy) preview URL exists for its track id and with the
no-preview message otherwise. -/
theorem C8_preview_loading :
    (∀ cards outcome, failedLoad outcome →
      clickShowPreviews cards outcome
        = ({ disabled := false, label := "Error Loading Previews" }, cards)) ∧
    (∀ cards previewData,
      clickShowPreviews cards (.response true (some previewData))
        = ({ disabled := true, label := "Previews Loaded" },
            cards.map (updateCard previewData))) ∧
    (∀ previewData card url,
      truthyUrl (previewData.lookup card.trackId) = some url →
      updateCard previewData card = { card with placeholder := audioPlayerHtml url }) ∧
    (∀ previewData card,
      truthyUrl (previewData.lookup card.trackId) = none →
      updateCard previewData card = { card with placeholder := noPreviewHtml }) := by
  refine ⟨?_, fun _ _ => rfl, ?_, ?_⟩
  · intro cards outcome hfail
    match outcome with
    | .networkError => rfl
    | .response ok body =>
        rcases hfail with rfl | rfl
        · rfl
        · cases ok <;> rfl
  · intro previewData card url h
    unfold updateCard
    rw [h]
  · intro previewData card h
    unfold updateCard
    rw [h]

/-- C8 (witness): the theorem applied to a network error over an empty
card list, and to a concrete payload carrying a preview URL for the card. -/
theorem C8_preview_loading_witness :
    clickShowPreviews [] PreviewOutcome.networkError
      = ({ disabled := false, label := "Error Loading Previews" }, []) ∧
    updateCard [("t1", some "https://p.scdn.co/mp3-preview/x")]
        { trackId := "t1", placeholder := "" }
      = { trackId := "t1",
          placeholder := audioPlayerHtml "https://p.scdn.co/mp3-preview/x" } :=
  ⟨C8_preview_loading.1 [] PreviewOutcome.networkError trivial,
   C8_preview_loading.2.2.1 [("t1", some "https://p.scdn.co/mp3-preview/x")]
     { trackId := "t1", placeholder := "" } "https://p.scdn.co/mp3-preview/x" rfl⟩

end TrackPreview

namespace Chat

/-! Model of the chat-form submit handler of src/unnamed/part_005 (object
of the claim; src/unnamed/part_000 has the identical guard and flow). The
handler calls preventDefault, trims the input, and returns when the
trimmed text is empty — before appending any message, clearing the input
or sending the POST; otherwise it appends the user message, clears the
input, sends the request and appends the bot reply (or an error text). -/

/-- Whitespace stripped by `String.prototype.trim`. -/
def jsWhitespace (c : Char) : Bool :=
  c == ' ' || c == '\t' || c == '\n' || c == '\r' || c == '\x0b' || c == '\x0c'

/-- Model of `String.prototype.trim`. -/
def jsTrim (s : String) : String :=
  String.mk (((s.data.dropWhile jsWhitespace).reverse.dropWhile jsWhitespace).reverse)

/-- Chat page state: the message list (sender, text), the value of the
input field, and the bodies of the POST requests sent so far. -/
structure ChatState where
  messages : List (String × String)
  inputValue : String
  requests : List String
deriving Repr, DecidableEq

/-- The parsed JSON body of the chat response. -/
structure ChatReply where
  reply : Option String := none
  error : Option String := none
deriving Repr, DecidableEq

/-- Observable outcome of the chat POST: rejected fetch, or a response
with its `ok` flag and body (`none` embeds a body that fails to parse). -/
inductive ChatOutcome where
  | networkError
  | response (ok : Bool) (body : Option ChatReply)
deriving Repr, DecidableEq

/-- A possibly-undefined reply interpolated into the message template:
undefined prints as "undefined". -/
def tmplText : Option String → String
  | some s => s
  | none => "undefined"

/-- `data.error || "An error occurred."`: a missing or empty (falsy)
error field falls back to the fixed text. -/
def errorOrDefault : Option String → String
  | some s => if s = "" then "An error occurred." else s
  | none => "An error occurred."

/-- The submit handler: trims, guards on empty, then appends the user
message, clears the input, records the request and appends the bot line
according to the outcome. -/
def chatSubmit (st : ChatState) (outcome : ChatOutcome) : ChatState :=
  let message := jsTrim st.inputValue
  if message = "" then st
  else
    let afterUser : ChatState :=
      { messages := st.messages ++ [("user", message)],
        inputValue := "",
        requests := st.requests ++ [message] }
    match outcome with
    | .networkError =>
        { afterUser with
            messages := afterUser.messages ++ [("bot", "An error occurred.")] }
    | .response _ none =>
        { afterUser with
            messages := afterUser.messages ++ [("bot", "An error occurred.")] }
    | .response true (some d) =>
        { afterUser with
            messages := afterUser.messages ++ [("bot", tmplText d.reply)] }
    | .response false (some d) =>
        { afterUser with
            messages := afterUser.messages ++ [("bot", errorOrDefault d.error)] }

/-- C10: submitting the chat form with input whose trim is empty is a
complete no-op — the state (messages, input value, requests sent) is
returned unchanged, whatever the network would have answered. -/
theorem C10_empty_chat_submit (st : ChatState) (outcome : ChatOutcome)
    (h : jsTrim st.inputValue = "") :
    chatSubmit st outcome = st := by
  unfold chatSubmit
  rw [h]
  rfl

/-- C10 (witness): the theorem applied to a whitespace-only input (three
spaces, a tab and a newline) and a network error outcome. -/
theorem C10_empty_chat_submit_witness :
    chatSubmit { messages := [], inputValue := "   \t\n", requests := [] }
        ChatOutcome.networkError
      = { messages := [], inputValue := "   \t\n", requests := [] } :=
  C10_empty_chat_submit
    { messages := [], inputValue := "   \t\n", requests := [] }
    ChatOutcome.networkError rfl

end Chat
